import Mathlib

/-!
Verification development for the terraform-to-hierarchy pipeline
(`terraform_parser.py`, `terraform_hierarchy.py`, `resource_node.py`,
`aws_parent_resources.py`).

The Python code scans free-form terraform text with regular expressions.
Each regex of the source is embedded here as an explicit character-level
scanner over `List Char` that reproduces the regex's matching behaviour
(left-to-right scan, non-overlapping matches, greedy character classes).
Python dictionaries (insertion ordered, upsert-in-place) are embedded as
association lists; `print` diagnostics are embedded as returned lists;
a raised Python exception is embedded as `Except.error`.
-/

set_option maxRecDepth 100000

/-- Python `\s` whitespace class. -/
def isPySpace (c : Char) : Bool :=
  c == ' ' || c == '\t' || c == '\n' || c == '\r' || c == '\x0b' || c == '\x0c'

/-- Match a literal character sequence at the head of the input, returning
the remainder on success. -/
def dropLit : List Char → List Char → Option (List Char)
  | [], s => some s
  | _ :: _, [] => none
  | c :: cs, d :: ds => if c = d then dropLit cs ds else none

/-- Regex `\s*`: skip any run of whitespace. -/
def dropSpaces (s : List Char) : List Char := s.dropWhile isPySpace

/-- Regex `\s+`: at least one whitespace character, maximal munch. -/
def dropSpaces1 (s : List Char) : Option (List Char) :=
  match s with
  | [] => none
  | c :: _ => if isPySpace c then some (s.dropWhile isPySpace) else none

/-- Regex `([^X]+)X` for a stop character `X`: a non-empty greedy capture of
characters other than `stop`, followed by `stop` itself (which is consumed).
Returns `(capture, rest-after-stop)`. -/
def captureUntil (stop : Char) (s : List Char) : Option (List Char × List Char) :=
  if (s.takeWhile (fun c => !(c == stop))).isEmpty then none
  else if (s.dropWhile (fun c => !(c == stop))).isEmpty then none
  else some (s.takeWhile (fun c => !(c == stop)),
             (s.dropWhile (fun c => !(c == stop))).tail)

/-- `re.finditer` over the input: at each position try `step`; on success emit
the value and resume at the end of the match, otherwise advance one
character.  `fuel` bounds the recursion; every caller passes
`input.length + 1`, which is enough because `step` always consumes at least
one character. -/
def scanAll (step : List Char → Option (α × List Char)) : Nat → List Char → List α
  | 0, _ => []
  | _ + 1, [] => []
  | fuel + 1, c :: cs =>
    match step (c :: cs) with
    | some (a, rest) => a :: scanAll step fuel rest
    | none => scanAll step fuel cs

/-- `re.search`: the first position (left to right) where `m` matches. -/
def searchFirst (m : List Char → Option α) : Nat → List Char → Option α
  | 0, _ => none
  | _ + 1, [] => none
  | fuel + 1, c :: cs =>
    match m (c :: cs) with
    | some a => some a
    | none => searchFirst m fuel cs

/-- Python dict lookup `d.get(k)` over an association list. -/
def pyGet : List (String × α) → String → Option α
  | [], _ => none
  | (k, v) :: rest, key => if k = key then some v else pyGet rest key

/-- A Python provider dictionary: insertion-ordered `alias → region`. -/
abbrev Dict := List (String × String)

/-- Python dict assignment `d[k] = v`: update in place if the key exists,
otherwise append. -/
def dictSet : Dict → String → String → Dict
  | [], k, v => [(k, v)]
  | (k0, v0) :: rest, k, v =>
    if k0 = k then (k0, v) :: rest else (k0, v0) :: dictSet rest k v

/-- Python `d.update(other)`: upsert every entry of `other` in order. -/
def dictUpdate (d other : Dict) : Dict :=
  other.foldl (fun acc kv => dictSet acc kv.1 kv.2) d

/-- Python truthiness test `not region` for an optional string: true for
`None` and for the empty string. -/
def pyFalsy : Option String → Bool
  | none => true
  | some s => s == ""

/-- `str.startswith` (embedded via the character lists of both strings). -/
def strStartsWith (s pre : String) : Bool :=
  pre.toList.isPrefixOf s.toList

/-- `AWS_PARENT_RESOURCES` of aws_parent_resources.py. -/
def AWS_PARENT_RESOURCES : List String :=
  ["aws_vpc", "aws_subnet", "aws_ecs_cluster", "aws_ecs_service"]

/-- `is_parent_resource` of aws_parent_resources.py. -/
def is_parent_resource (resource_type : String) : Bool :=
  AWS_PARENT_RESOURCES.contains resource_type

/-- The dataclass `ResourceNode` of resource_node.py. -/
structure ResourceNode where
  name : String
  identifier : String
  is_parent : Bool
  region : String := "us-east-1"
deriving DecidableEq, Repr

/-- `ResourceNode(...)` construction including the `__post_init__`
validation: empty name or identifier raises `ValueError`. -/
def ResourceNode.init (name identifier : String) (is_parent : Bool)
    (region : String) : Except String ResourceNode :=
  if name = "" then Except.error "ValueError: Resource name cannot be empty"
  else if identifier = "" then
    Except.error "ValueError: Resource identifier cannot be empty"
  else Except.ok ⟨name, identifier, is_parent, region⟩

/-- A Python dictionary value as produced by `ResourceNode.to_dict`:
the fields are strings and one boolean. -/
inductive PyVal where
  | str : String → PyVal
  | bool : Bool → PyVal
deriving DecidableEq, Repr

/-- `ResourceNode.to_dict`. -/
def ResourceNode.to_dict (n : ResourceNode) : List (String × PyVal) :=
  [("name", PyVal.str n.name),
   ("identifier", PyVal.str n.identifier),
   ("is_parent", PyVal.bool n.is_parent),
   ("region", PyVal.str n.region)]

/-- `ResourceNode.from_dict`: requires the keys `name`, `identifier` and
`is_parent`, defaults `region` to `"us-east-1"`, then constructs the node
(running the `__post_init__` validation).  The dynamic typing of the
original is embedded only for the string/bool field kinds that
`to_dict` produces; any other kind is an error. -/
def ResourceNode.from_dict (data : List (String × PyVal)) :
    Except String ResourceNode :=
  if ((pyGet data "name").isSome && (pyGet data "identifier").isSome &&
      (pyGet data "is_parent").isSome) = false then
    Except.error "ValueError: Missing required fields"
  else
    match pyGet data "name", pyGet data "identifier", pyGet data "is_parent",
        (pyGet data "region").getD (PyVal.str "us-east-1") with
    | some (PyVal.str nm), some (PyVal.str idf), some (PyVal.bool par),
        PyVal.str reg => ResourceNode.init nm idf par reg
    | _, _, _, _ => Except.error "TypeError: unexpected field kind"

/-- Regex `provider\s+"aws"\s*\x7b([^\x7d]+)\x7d` at the current position:
returns the captured block body and the rest after the closing brace. -/
def matchProviderBlock (s : List Char) : Option (List Char × List Char) := do
  let s1 ← dropLit ("provider".toList) s
  let s2 ← dropSpaces1 s1
  let s3 ← dropLit ("\"aws\"".toList) s2
  let s4 := dropSpaces s3
  let s5 ← dropLit ['{'] s4
  captureUntil '}' s5

/-- `findProviderBlocks` = `re.finditer` of the provider-block regex:
the captured bodies of all provider blocks, in scan order. -/
def findProviderBlocks (cs : List Char) : List (List Char) :=
  scanAll (fun s => matchProviderBlock s) (cs.length + 1) cs

/-- The common shape `KEY\s*=\s*` of the attribute regexes. -/
def matchKeyEq (kw : List Char) (s : List Char) : Option (List Char) := do
  let s1 ← dropLit kw s
  let s2 := dropSpaces s1
  let s3 ← dropLit ['='] s2
  pure (dropSpaces s3)

/-- Regex `KEY\s*=\s*"([^"]+)"` at the current position. -/
def matchQuotedVal (kw : List Char) (s : List Char) : Option (List Char) := do
  let s3 ← matchKeyEq kw s
  let s4 ← dropLit ['"'] s3
  let (v, _) ← captureUntil '"' s4
  pure v

/-- `re.search(region_pattern, block)`: first `region = "..."` value. -/
def searchRegion (block : List Char) : Option (List Char) :=
  searchFirst (matchQuotedVal ("region".toList)) block.length block

/-- `re.search(alias_pattern, block)`: first `alias = "..."` value. -/
def searchAlias (block : List Char) : Option (List Char) :=
  searchFirst (matchQuotedVal ("alias".toList)) block.length block

/-- The loop body of `parse_terraform_providers` (lines 24–40): a block
without a region is skipped; otherwise its alias (or `"default"`) is bound
to the region. -/
def providerStep (provs : Dict) (block : List Char) : Dict :=
  match searchRegion block with
  | none => provs
  | some region =>
    match searchAlias block with
    | some al => dictSet provs al.asString region.asString
    | none => dictSet provs "default" region.asString

/-- `parse_terraform_providers` of terraform_parser.py, over the character
list of the span: scan all provider blocks; for each block with a region,
bind its alias (or `"default"`) to the region, later blocks overwriting
earlier ones; if the resulting dict is empty, seed `"default" → "us-east-1"`. -/
def parse_providers_chars (cs : List Char) : Dict :=
  let providers := (findProviderBlocks cs).foldl providerStep []
  if providers.isEmpty then [("default", "us-east-1")] else providers

/-- `parse_terraform_providers` with the source's string signature. -/
def parse_terraform_providers (terraform_content : String) : Dict :=
  parse_providers_chars terraform_content.toList

/-- One match of the resource-block regex
`resource\s+"([^"]+)"\s+"([^"]+)"\s+\x7b([^\x7d]+)\x7d`:
the resource type, the local name, and the captured body. -/
structure ResMatch where
  rtype : String
  rname : String
  body : List Char
deriving DecidableEq, Repr

/-- The resource-block regex at the current position. -/
def matchResourceBlock (s : List Char) : Option (ResMatch × List Char) := do
  let s1 ← dropLit ("resource".toList) s
  let s2 ← dropSpaces1 s1
  let s3 ← dropLit ['"'] s2
  let (ty, s4) ← captureUntil '"' s3
  let s5 ← dropSpaces1 s4
  let s6 ← dropLit ['"'] s5
  let (nm, s7) ← captureUntil '"' s6
  let s8 ← dropSpaces1 s7
  let s9 ← dropLit ['{'] s8
  let (body, s10) ← captureUntil '}' s9
  pure (⟨ty.asString, nm.asString, body⟩, s10)

/-- `re.finditer` of the resource-block regex over a span. -/
def resourceMatches (terraform_content : String) : List ResMatch :=
  scanAll (fun s => matchResourceBlock s)
    (terraform_content.toList.length + 1) terraform_content.toList

/-- Regex `provider\s*=\s*aws\.([^\s\n\x7d]+)` at the current position. -/
def matchProviderRef (s : List Char) : Option String := do
  let s3 ← matchKeyEq ("provider".toList) s
  let s4 ← dropLit ("aws.".toList) s3
  let cap := s4.takeWhile (fun c => !(isPySpace c) && !(c == '}'))
  if cap.isEmpty then none else pure cap.asString

/-- `re.search(provider_config_pattern, block_content)` as used on a
resource body, yielding `provider_alias` (`"default"` when absent). -/
def inlineAlias (m : ResMatch) : String :=
  (searchFirst matchProviderRef m.body.length m.body).getD "default"

/-- Lines 84–87 of terraform_parser.py: `providers.get(alias)` followed by
the falsy test and the `"us-east-1"` fallback. -/
def resolveRegion (providers : Dict) (al : String) : String :=
  match pyGet providers al with
  | some r => if r = "" then "us-east-1" else r
  | none => "us-east-1"

/-- The `ResourceNode` built for one resource-block match (lines 69–95 of
terraform_parser.py). -/
def recordOf (providers : Dict) (m : ResMatch) : ResourceNode :=
  { name := m.rname
    identifier := m.rtype ++ "." ++ m.rname
    is_parent := is_parent_resource m.rtype
    region := resolveRegion providers (inlineAlias m) }

/-- The `print` warning of line 86, emitted when `providers.get(alias)` is
falsy; embedded as the pair (provider alias, resource identifier). -/
def unresolvedWarning (providers : Dict) (m : ResMatch) :
    Option (String × String) :=
  if pyFalsy (pyGet providers (inlineAlias m)) then
    some (inlineAlias m, m.rtype ++ "." ++ m.rname)
  else none

/-- Result of `parse_terraform_resources_with_providers`: the source returns
`(providers, resources)`; the `warnings` component embeds the stdout
diagnostics printed during the loop, in scan order. -/
structure ExtractResult where
  providers : Dict
  resources : List ResourceNode
  warnings : List (String × String)
deriving DecidableEq, Repr

/-- `parse_terraform_resources_with_providers` of terraform_parser.py. -/
def parse_terraform_resources_with_providers (terraform_content : String)
    (providers : Dict) : ExtractResult :=
  let ms := resourceMatches terraform_content
  { providers := providers
    resources := ms.map (recordOf providers)
    warnings := ms.filterMap (unresolvedWarning providers) }

/-- The lookahead alternative `={16,}` of the file-marker regex: a run of at
least sixteen equals signs. -/
def markerEqRun (s : List Char) : Bool :=
  16 ≤ (s.takeWhile (fun c => c == '=')).length

/-- The lookahead alternative `#\s*File:` of the file-marker regex. -/
def markerHashFile (s : List Char) : Bool :=
  match dropLit ['#'] s with
  | none => false
  | some s1 => (dropLit ("File:".toList) (dropSpaces s1)).isSome

/-- The lookahead `(?=\n(?:={16,}|#\s*File:))` tests the text after a
newline against either marker form. -/
def isMarkerStart (s : List Char) : Bool := markerEqRun s || markerHashFile s

/-- The lazy content capture `(.*?)(?=\n(?:={16,}|#\s*File:)|\Z)`:
the shortest run of characters up to a newline that is followed by a
marker, or to the end of input.  Returns (content, rest at the
unconsumed newline or end). -/
def takeFileContent : List Char → List Char × List Char
  | [] => ([], [])
  | c :: rest =>
    if c = '\n' && isMarkerStart rest then ([], c :: rest)
    else
      let (content, r) := takeFileContent rest
      (c :: content, r)

/-- The boxed banner header `={16,}\nFile:\s+([^\n]+)\n={16,}`:
returns the rest of the input after the second banner run. -/
def matchBannerHeader (s : List Char) : Option (List Char) :=
  if markerEqRun s then do
    let s1 ← dropLit ['\n'] (s.dropWhile (fun c => c == '='))
    let s2 ← dropLit ("File:".toList) s1
    let s3 ← dropSpaces1 s2
    let nm := s3.takeWhile (fun c => !(c == '\n'))
    if nm.isEmpty then none
    else do
      let s4 ← dropLit ['\n'] (s3.dropWhile (fun c => !(c == '\n')))
      if markerEqRun s4 then some (s4.dropWhile (fun c => c == '=')) else none
  else none

/-- The comment header `#\s*File:\s+([^\n]+)`: returns the rest of the
input after the file name (at the newline that follows it). -/
def matchHashHeader (s : List Char) : Option (List Char) := do
  let s1 ← dropLit ['#'] s
  let s2 ← dropLit ("File:".toList) (dropSpaces s1)
  let s3 ← dropSpaces1 s2
  let nm := s3.takeWhile (fun c => !(c == '\n'))
  if nm.isEmpty then none else pure (s3.dropWhile (fun c => !(c == '\n')))

/-- One match of the whole file-marker regex: either header form, the
newline after it, then the lazily captured span content (regex group 3). -/
def matchFileSpan (s : List Char) : Option (List Char × List Char) := do
  let s1 ← match matchBannerHeader s with
           | some r => some r
           | none => matchHashHeader s
  let s2 ← dropLit ['\n'] s1
  pure (takeFileContent s2)

/-- The file segmenter of `parse_terraform_files`: the contents (group 3)
of every file-marker match, in scan order. -/
def segmentFiles (file_contents : String) : List String :=
  (scanAll (fun s => matchFileSpan s)
      (file_contents.toList.length + 1) file_contents.toList).map List.asString

/-- The first pass of `parse_terraform_files` (lines 121–124): merge each
span's provider map into one dict, later spans overwriting earlier ones. -/
def all_providers_of (spans : List String) : Dict :=
  spans.foldl (fun acc sp => dictUpdate acc (parse_terraform_providers sp)) []

/-- `parse_terraform_files` of terraform_parser.py: segment the input,
collect all providers across all spans, then extract the resources of every
span with the complete provider map. -/
def parse_terraform_files (file_contents : String) : Dict × List ResourceNode :=
  let spans := segmentFiles file_contents
  let all_providers := all_providers_of spans
  let all_resources := spans.foldl
    (fun acc sp =>
      acc ++ (parse_terraform_resources_with_providers sp all_providers).resources)
    []
  (all_providers, all_resources)

/-- One node of the hierarchy dict built by terraform_hierarchy.py: a Python
dict with keys `"name"`, `"type"` and `"children"`; `children` is an
insertion-ordered dict from child key to child node. -/
structure HNode where
  name : String
  type : String
  children : List (String × HNode)

/-- The result shape of `create_aws_hierarchy`: the top-level dict
(`"aws-cloud"` is its only key). -/
abbrev Hierarchy := List (String × HNode)

/-- Walk a `children` path through nested hierarchy nodes. -/
def childAt (l : List (String × HNode)) : List String → Option HNode
  | [] => none
  | [k] => pyGet l k
  | k :: rest =>
    match pyGet l k with
    | none => none
    | some n => childAt n.children rest

/-- Lines 37–138 of terraform_hierarchy.py as a function of the resource
list: the children of the single `"region"` node.  A `"aws-vpc"` node is
created only when at least one `aws_vpc` resource exists; the five leaf
categories are created under it if and only if a matching resource exists;
the ECS cluster nests under `"aws-subnet"` when at least one `aws_subnet`
resource exists anywhere, and directly under the VPC otherwise; the ECS
service and task-definition chain nests under the cluster.  The resource
regions are never consulted. -/
def create_hierarchy_children (resources : List ResourceNode) :
    List (String × HNode) :=
  let vpc_resources := resources.filter
    (fun r => strStartsWith r.identifier "aws_vpc.")
  if vpc_resources.isEmpty then []
  else
    let route_tables := resources.filter
      (fun r => strStartsWith r.identifier "aws_route_table.")
    let rt_associations := resources.filter
      (fun r => strStartsWith r.identifier "aws_route_table_association.")
    let iam_roles := resources.filter
      (fun r => strStartsWith r.identifier "aws_iam_role.")
    let policy_attachments := resources.filter
      (fun r => strStartsWith r.identifier "aws_iam_role_policy_attachment.")
    let security_groups := resources.filter
      (fun r => strStartsWith r.identifier "aws_security_group.")
    let subnets := resources.filter
      (fun r => strStartsWith r.identifier "aws_subnet.")
    let ecs_clusters := resources.filter
      (fun r => strStartsWith r.identifier "aws_ecs_cluster.")
    let ecs_services := resources.filter
      (fun r => strStartsWith r.identifier "aws_ecs_service.")
    let task_definitions := resources.filter
      (fun r => strStartsWith r.identifier "aws_ecs_task_definition.")
    let service_children : List (String × HNode) :=
      if task_definitions.isEmpty then []
      else [("aws-ecs-task-definition",
             { name := "ECS Task Definition",
               type := "aws-ecs-task-definition", children := [] })]
    let cluster_children : List (String × HNode) :=
      if ecs_services.isEmpty then []
      else [("aws-ecs-service",
             { name := "ECS Service", type := "aws-ecs-service",
               children := service_children })]
    let ecs_cluster_node : HNode :=
      { name := "ECS Cluster", type := "aws-ecs-cluster",
        children := cluster_children }
    let vpc_children : List (String × HNode) :=
      (if route_tables.isEmpty then []
       else [("aws-route-table",
              { name := "Route Table", type := "aws-route-table",
                children := [] })]) ++
      (if rt_associations.isEmpty then []
       else [("aws-route-table-association",
              { name := "Route Table Association",
                type := "aws-route-table-association", children := [] })]) ++
      (if iam_roles.isEmpty then []
       else [("aws-iam-role",
              { name := "IAM Role", type := "aws-iam-role",
                children := [] })]) ++
      (if policy_attachments.isEmpty then []
       else [("aws-iam-role-policy-attachment",
              { name := "IAM Role Policy Attachment",
                type := "aws-iam-role-policy-attachment", children := [] })]) ++
      (if security_groups.isEmpty then []
       else [("aws-security-group",
              { name := "AWS Security Group", type := "aws-security-group",
                children := [] })]) ++
      (if subnets.isEmpty then []
       else [("aws-subnet",
              { name := "subnet", type := "Subnet",
                children :=
                  if ecs_clusters.isEmpty then []
                  else [("aws-ecs-cluster", ecs_cluster_node)] })]) ++
      (if subnets.isEmpty && !ecs_clusters.isEmpty then
        [("aws-ecs-cluster", ecs_cluster_node)]
       else [])
    [("aws-vpc", { name := "VPC", type := "VPC", children := vpc_children })]

/-- The tree that lines 20–139 of terraform_hierarchy.py build from a
resource list: the root `"aws-cloud"` node with the single fixed
`"region"` node (type `"region"`, name `"AWS Region"`) under it. -/
def hierarchyOf (resources : List ResourceNode) : Hierarchy :=
  [("aws-cloud",
    { name := "AWS Cloud", type := "aws-cloud",
      children :=
        [("region",
          { name := "AWS Region", type := "region",
            children := create_hierarchy_children resources })] })]

/-- An element obtained by iterating the value that line 17 of
terraform_hierarchy.py binds: `resources = parse_terraform_files(...)`
binds the returned PAIR, so iteration yields the provider dict and then
the resource list. -/
inductive PyObj where
  | providerMap : Dict → PyObj
  | resourceList : List ResourceNode → PyObj

/-- The attribute access `r.identifier` of line 38: neither a Python dict
nor a list has an `identifier` attribute, so both raise `AttributeError`. -/
def pyIdentifierAttr : PyObj → Except String String
  | PyObj.providerMap _ =>
    Except.error "AttributeError: dict object has no attribute identifier"
  | PyObj.resourceList _ =>
    Except.error "AttributeError: list object has no attribute identifier"

/-- The list comprehension
`[r for r in resources if r.identifier.startswith(p)]` of line 38,
evaluating `r.identifier` left to right and propagating the first raised
exception. -/
def pyFilterStartsWith (p : String) : List PyObj → Except String (List PyObj)
  | [] => Except.ok []
  | o :: os => do
    let idv ← pyIdentifierAttr o
    let rest ← pyFilterStartsWith p os
    if strStartsWith idv p then Except.ok (o :: rest) else Except.ok rest

/-- `create_aws_hierarchy` of terraform_hierarchy.py.  Line 17 binds the
pair returned by `parse_terraform_files` directly to `resources` (it does
not unpack it), so the comprehension of line 38 iterates over the pair's
two elements and raises `AttributeError` on the provider dict — for every
input.  The success continuation (never reached) is the tree of lines
20–139 over the extracted resource list, `hierarchyOf`. -/
def create_aws_hierarchy (terraform_content : String) :
    Except String Hierarchy := do
  let parsed := parse_terraform_files terraform_content
  let resources : List PyObj :=
    [PyObj.providerMap parsed.1, PyObj.resourceList parsed.2]
  let _vpc_resources ← pyFilterStartsWith "aws_vpc." resources
  Except.ok (hierarchyOf parsed.2)

/-- A two-alias, two-region input (comment-marker form), mirroring the
multi-region scenario of the spec: two provider aliases bound to
`us-east-1` and `us-east-2`, and one `aws_vpc` resource referencing each. -/
def multiRegionInput : String :=
  "# File: providers.tf\nprovider \"aws\" \x7b\n  alias = \"use1\"\n  region = \"us-east-1\"\n\x7d\nprovider \"aws\" \x7b\n  alias = \"use2\"\n  region = \"us-east-2\"\n\x7d\n# File: vpc.tf\nresource \"aws_vpc\" \"a\" \x7b\n  provider = aws.use1\n\x7d\nresource \"aws_vpc\" \"b\" \x7b\n  provider = aws.use2\n\x7d\n"

/-- A single-file, single-VPC input in the boxed banner-marker form. -/
def basicVpcInput : String :=
  "================\nFile: main.tf\n================\nprovider \"aws\" \x7b\n  region = \"us-east-1\"\n\x7d\n\nresource \"aws_vpc\" \"main\" \x7b\n  cidr_block = \"10.0.0.0/16\"\n\x7d\n"

/-- A two-span input whose first span declares an unaliased provider bound
to `eu-west-1` and whose second span declares no providers at all. -/
def twoSpanInput : String :=
  "# File: a.tf\nprovider \"aws\" \x7b\n  region = \"eu-west-1\"\n\x7d\n# File: b.tf\nno providers here\n"

/-- An input declaring (in one span) one `aws_subnet` and one
`aws_ecs_cluster` resource — both resolving to the same region
`us-east-1` — and no `aws_vpc` resource. -/
def subnetClusterInput : String :=
  "# File: main.tf\nresource \"aws_subnet\" \"a\" \x7b\n  cidr = \"x\"\n\x7d\nresource \"aws_ecs_cluster\" \"b\" \x7b\n  name = \"c\"\n\x7d\n"

/-- A resource declaration whose body contains a nested brace-delimited
`tags` sub-block, with an inline provider reference placed after the
nested sub-block. -/
def nestedBodyInput : String :=
  "resource \"aws_vpc\" \"main\" \x7b\n  tags = \x7b\n    Name = \"x\"\n  \x7d\n  provider = aws.east2\n\x7d\n"

/-- A provider map binding `default` to `eu-west-1` and `east2` to
`us-east-2`, for the nested-body input. -/
def nestedBodyProviders : Dict := [("default", "eu-west-1"), ("east2", "us-east-2")]

/-- A simple declaration referencing the never-declared alias `ghost`. -/
def ghostAliasInput : String :=
  "resource \"aws_vpc\" \"main\" \x7b\n  provider = aws.ghost\n\x7d"

theorem pyGet_dictSet_self (d : Dict) (k v : String) :
    pyGet (dictSet d k v) k = some v := by
  induction d with
  | nil => simp [dictSet, pyGet]
  | cons hd t ih =>
    obtain ⟨k0, v0⟩ := hd
    by_cases hk : k0 = k
    · simp [dictSet, hk, pyGet]
    · simp [dictSet, hk, pyGet, ih]

theorem providerStep_foldl_of_no_region (blocks : List (List Char)) (acc : Dict)
    (h : ∀ b ∈ blocks, searchRegion b = none) :
    blocks.foldl providerStep acc = acc := by
  induction blocks generalizing acc with
  | nil => rfl
  | cons b bs ih =>
    rw [List.foldl_cons]
    have hb : searchRegion b = none := h b (by simp)
    have hstep : providerStep acc b = acc := by simp [providerStep, hb]
    rw [hstep]
    exact ih acc (fun b' hb' => h b' (by simp [hb']))

theorem parse_providers_seeded (cs : List Char)
    (h : ∀ b ∈ findProviderBlocks cs, searchRegion b = none) :
    parse_providers_chars cs = [("default", "us-east-1")] := by
  unfold parse_providers_chars
  rw [providerStep_foldl_of_no_region _ _ h]
  rfl

/-- Claim C1: the spec states that no exception propagates out of the
assembler for any input the extractor tokenized.  The code contradicts its
own tests (`test_terraform_hierarchy.py` expects trees): line 17 of
terraform_hierarchy.py binds the `(providers, resources)` pair to
`resources` without unpacking it, so the comprehension of line 38 raises
`AttributeError` on the provider dict — for every input text, a tree is
never returned. -/
theorem create_aws_hierarchy_always_raises (terraform_content : String) :
    create_aws_hierarchy terraform_content =
      Except.error "AttributeError: dict object has no attribute identifier" := rfl

/-- Claim C9: for every constructible node (non-empty name and identifier),
`from_dict ∘ to_dict` is the identity, region included. -/
theorem resource_node_dict_roundtrip (n : ResourceNode)
    (h1 : n.name ≠ "") (h2 : n.identifier ≠ "") :
    ResourceNode.from_dict (ResourceNode.to_dict n) = Except.ok n := by
  obtain ⟨nm, idf, par, reg⟩ := n
  simp only [ne_eq] at h1 h2
  simp [ResourceNode.to_dict, ResourceNode.from_dict, pyGet, ResourceNode.init,
    h1, h2]

/-- Witness for C9 at a concrete node. -/
theorem resource_node_dict_roundtrip_witness :
    ("web" : String) ≠ "" ∧ ("aws_vpc.web" : String) ≠ "" ∧
    ResourceNode.from_dict
        (ResourceNode.to_dict ⟨"web", "aws_vpc.web", true, "us-east-1"⟩) =
      Except.ok ⟨"web", "aws_vpc.web", true, "us-east-1"⟩ :=
  ⟨by decide, by decide,
    resource_node_dict_roundtrip ⟨"web", "aws_vpc.web", true, "us-east-1"⟩
      (by decide) (by decide)⟩

/-- Claim C10: the per-span resolver never returns an empty map, and on a
span whose provider blocks all lack a resolvable region (in particular a
span with no provider blocks at all) it returns exactly
`{"default": "us-east-1"}` — the seeding happens in the per-span resolver
itself. -/
theorem parse_providers_nonempty_and_seeds (terraform_content : String) :
    parse_terraform_providers terraform_content ≠ [] ∧
    ((∀ b ∈ findProviderBlocks terraform_content.toList, searchRegion b = none) →
      parse_terraform_providers terraform_content = [("default", "us-east-1")]) := by
  constructor
  · show parse_providers_chars terraform_content.toList ≠ []
    unfold parse_providers_chars
    cases h : (findProviderBlocks terraform_content.toList).foldl providerStep [] with
    | nil => simp
    | cons a t => simp
  · intro h
    exact parse_providers_seeded _ h

/-- Witness for C10 at a concrete provider-free span. -/
theorem parse_providers_seeds_witness :
    (∀ b ∈ findProviderBlocks ("hello world".toList), searchRegion b = none) ∧
    parse_terraform_providers "hello world" = [("default", "us-east-1")] :=
  ⟨by decide, (parse_providers_nonempty_and_seeds "hello world").2 (by decide)⟩

theorem isEmpty_false_of_ne_nil {α} {l : List α} (h : l ≠ []) :
    l.isEmpty = false := by
  cases l with
  | nil => exact absurd rfl h
  | cons a t => rfl

/-- Claim C2 counterexample facts: on the two-region input the extractor
resolves one resource to each region, yet `create_aws_hierarchy` raises
(tuple-unpacking bug), and even the tree-building logic of lines 20–139
produces the single fixed `"region"` node — never one region node per
resolved region. -/
theorem multi_region_single_fixed_region_node :
    ((parse_terraform_files multiRegionInput).2.map (fun r => r.region) =
      ["us-east-1", "us-east-2"]) ∧
    create_aws_hierarchy multiRegionInput =
      Except.error "AttributeError: dict object has no attribute identifier" ∧
    ((hierarchyOf (parse_terraform_files multiRegionInput).2).map Prod.fst =
      ["aws-cloud"]) ∧
    ((pyGet (hierarchyOf (parse_terraform_files multiRegionInput).2) "aws-cloud").map
        (fun n => n.children.map Prod.fst) = some ["region"]) :=
  ⟨by decide, rfl, by decide, by decide⟩

/-- Claim C8: the pipeline never yields a tree at all — on the basic
single-VPC input (on which the extractor succeeds) every run raises the
same `AttributeError`. -/
theorem pipeline_never_yields_tree :
    ((parse_terraform_files basicVpcInput).2 =
      [⟨"main", "aws_vpc.main", true, "us-east-1"⟩]) ∧
    create_aws_hierarchy basicVpcInput =
      Except.error "AttributeError: dict object has no attribute identifier" :=
  ⟨by decide, rfl⟩

/-- Claim C3 counterexample: on the empty input no tree is returned at all
(the assembler raises), and even the tree-building logic of lines 20–139
yields a region node with no children — no unconditional network-boundary
(VPC) node exists. -/
theorem empty_input_no_unconditional_vpc_node :
    create_aws_hierarchy "" =
      Except.error "AttributeError: dict object has no attribute identifier" ∧
    (parse_terraform_files "").2 = [] ∧
    (create_hierarchy_children (parse_terraform_files "").2).isEmpty = true ∧
    (childAt (hierarchyOf (parse_terraform_files "").2)
        ["aws-cloud", "region", "aws-vpc"]).isSome = false :=
  ⟨rfl, by decide, by decide, by decide⟩

/-- Claim C3 amended: the tree-building logic creates exactly one fixed
region node under the root, and a network-boundary (VPC) node under it if
and only if at least one `aws_vpc` resource exists in the list. -/
theorem region_node_fixed_and_vpc_node_iff (rs : List ResourceNode) :
    ((hierarchyOf rs).map Prod.fst = ["aws-cloud"]) ∧
    ((pyGet (hierarchyOf rs) "aws-cloud").map
        (fun n => n.children.map Prod.fst) = some ["region"]) ∧
    ((childAt (hierarchyOf rs) ["aws-cloud", "region", "aws-vpc"]).isSome = true ↔
      rs.filter (fun r => strStartsWith r.identifier "aws_vpc.") ≠ []) := by
  refine ⟨by simp [hierarchyOf], by simp [hierarchyOf, pyGet], ?_⟩
  rcases h : (rs.filter (fun r => strStartsWith r.identifier "aws_vpc.")).isEmpty with _ | _
  · have hne : rs.filter (fun r => strStartsWith r.identifier "aws_vpc.") ≠ [] := by
      intro hc
      rw [hc] at h
      simp at h
    simp [hierarchyOf, childAt, pyGet, create_hierarchy_children, h, hne]
  · have hnil : rs.filter (fun r => strStartsWith r.identifier "aws_vpc.") = [] :=
      List.isEmpty_iff.mp h
    simp [hierarchyOf, childAt, pyGet, create_hierarchy_children, h, hnil]

/-- Claim C4 counterexample: the two-span input declares one resolvable
unaliased provider (bound to `eu-west-1`) in its first span, so under the
claim the merged map would bind `default` to `eu-west-1` and contain no
seeded entry.  In fact the provider-free second span seeds
`default → us-east-1` and overwrites the first span's binding: the merged
map is exactly the seeded `{"default": "us-east-1"}`. -/
theorem provider_map_seeded_despite_declaration :
    (segmentFiles twoSpanInput =
      ["provider \"aws\" \x7b\n  region = \"eu-west-1\"\n\x7d",
       "no providers here\n"]) ∧
    (parse_terraform_providers "provider \"aws\" \x7b\n  region = \"eu-west-1\"\n\x7d" =
      [("default", "eu-west-1")]) ∧
    ((parse_terraform_files twoSpanInput).1 = [("default", "us-east-1")]) :=
  ⟨by decide, by decide, by decide⟩

/-- Claim C4 amended: the fallback seeding is applied per span, not once
per whole input — whenever the last span contains no provider block with a
resolvable region, the merged map of the whole-input pass binds
`default` to `us-east-1`, regardless of the provider declarations of the
earlier spans. -/
theorem seeding_applies_per_span (init : List String) (lastSpan : String)
    (h : ∀ b ∈ findProviderBlocks lastSpan.toList, searchRegion b = none) :
    pyGet (all_providers_of (init ++ [lastSpan])) "default" = some "us-east-1" := by
  unfold all_providers_of
  rw [List.foldl_append, List.foldl_cons, List.foldl_nil]
  have hseed : parse_terraform_providers lastSpan = [("default", "us-east-1")] :=
    parse_providers_seeded _ h
  rw [hseed]
  show pyGet (dictSet _ "default" "us-east-1") "default" = some "us-east-1"
  exact pyGet_dictSet_self _ _ _

/-- Witness for the amended C4, at the two spans of `twoSpanInput`. -/
theorem seeding_applies_per_span_witness :
    (∀ b ∈ findProviderBlocks ("no providers here\n".toList),
        searchRegion b = none) ∧
    pyGet (all_providers_of
        (["provider \"aws\" \x7b\n  region = \"eu-west-1\"\n\x7d"] ++
         ["no providers here\n"])) "default" = some "us-east-1" :=
  ⟨by decide,
    seeding_applies_per_span
      ["provider \"aws\" \x7b\n  region = \"eu-west-1\"\n\x7d"]
      "no providers here\n" (by decide)⟩

theorem pyGet_append_none {α} {l1 : List (String × α)} {k : String}
    (l2 : List (String × α)) (h : pyGet l1 k = none) :
    pyGet (l1 ++ l2) k = pyGet l2 k := by
  induction l1 with
  | nil => simp
  | cons hd t ih =>
    obtain ⟨k0, v0⟩ := hd
    by_cases hk : k0 = k
    · simp [pyGet, hk] at h
    · simp only [pyGet, hk, if_false] at h
      simpa [pyGet, hk] using ih h

theorem pyGet_append_some {α} {l1 : List (String × α)} {k : String} {v : α}
    (l2 : List (String × α)) (h : pyGet l1 k = some v) :
    pyGet (l1 ++ l2) k = some v := by
  induction l1 with
  | nil => simp [pyGet] at h
  | cons hd t ih =>
    obtain ⟨k0, v0⟩ := hd
    by_cases hk : k0 = k
    · simpa [pyGet, hk] using h
    · simp only [pyGet, hk, if_false] at h
      simpa [pyGet, hk] using ih h

/-- Claim C6 counterexample: an input with a subnet record and an ECS
cluster record in the same region (`us-east-1`) but without any VPC
record.  The pipeline raises, and even the tree-building logic of lines
20–139 yields no node at all (the whole subtree is built only under the
`if vpc_resources:` guard), so the cluster node has no parent — neither
the segment node nor the network boundary. -/
theorem same_region_cluster_without_vpc_no_node :
    ((parse_terraform_files subnetClusterInput).2.map
        (fun r => (r.identifier, r.region)) =
      [("aws_subnet.a", "us-east-1"), ("aws_ecs_cluster.b", "us-east-1")]) ∧
    create_aws_hierarchy subnetClusterInput =
      Except.error "AttributeError: dict object has no attribute identifier" ∧
    (create_hierarchy_children
        (parse_terraform_files subnetClusterInput).2).isEmpty = true :=
  ⟨by decide, rfl, by decide⟩

/-- Claim C6 amended: in the tree-building logic of lines 20–139, provided
at least one `aws_vpc` record exists (the whole subtree is only built
then), and with regions ignored entirely (any subnet record anywhere
triggers nesting): the ECS-cluster node is a child of the subnet node and
not of the VPC node when at least one `aws_subnet` record exists, and a
child of the VPC node when none does. -/
theorem cluster_nests_under_subnet_else_under_vpc (rs : List ResourceNode)
    (hv : rs.filter (fun r => strStartsWith r.identifier "aws_vpc.") ≠ [])
    (hc : rs.filter (fun r => strStartsWith r.identifier "aws_ecs_cluster.") ≠ []) :
    ((rs.filter (fun r => strStartsWith r.identifier "aws_subnet.") ≠ [] →
        (childAt (create_hierarchy_children rs)
            ["aws-vpc", "aws-subnet", "aws-ecs-cluster"]).isSome = true ∧
        (childAt (create_hierarchy_children rs)
            ["aws-vpc", "aws-ecs-cluster"]).isSome = false) ∧
     (rs.filter (fun r => strStartsWith r.identifier "aws_subnet.") = [] →
        (childAt (create_hierarchy_children rs)
            ["aws-vpc", "aws-ecs-cluster"]).isSome = true ∧
        (childAt (create_hierarchy_children rs)
            ["aws-vpc", "aws-subnet"]).isSome = false)) := by
  have hv' := isEmpty_false_of_ne_nil hv
  have hc' := isEmpty_false_of_ne_nil hc
  constructor
  · intro hs
    have hs' := isEmpty_false_of_ne_nil hs
    simp only [create_hierarchy_children, hv', hc', hs', Bool.false_eq_true,
      Bool.false_and, Bool.not_false, Bool.true_and, if_false, childAt]
    split_ifs <;> simp [pyGet]
  · intro hs
    have hs' : (rs.filter
        (fun r => strStartsWith r.identifier "aws_subnet.")).isEmpty = true := by
      rw [hs]
      rfl
    simp only [create_hierarchy_children, hv', hc', hs', Bool.false_eq_true,
      Bool.false_and, Bool.not_false, Bool.true_and, if_false, if_true, childAt]
    split_ifs <;> simp [pyGet]

/-- Witness for the amended C6 at a concrete three-record list. -/
theorem cluster_nests_under_subnet_witness :
    (([⟨"v", "aws_vpc.v", true, "us-east-1"⟩,
       ⟨"s", "aws_subnet.s", true, "us-east-1"⟩,
       ⟨"c", "aws_ecs_cluster.c", true, "us-east-1"⟩] : List ResourceNode).filter
        (fun r => strStartsWith r.identifier "aws_vpc.") ≠ []) ∧
    (childAt (create_hierarchy_children
        [⟨"v", "aws_vpc.v", true, "us-east-1"⟩,
         ⟨"s", "aws_subnet.s", true, "us-east-1"⟩,
         ⟨"c", "aws_ecs_cluster.c", true, "us-east-1"⟩])
        ["aws-vpc", "aws-subnet", "aws-ecs-cluster"]).isSome = true :=
  ⟨by decide,
    (((cluster_nests_under_subnet_else_under_vpc
        [⟨"v", "aws_vpc.v", true, "us-east-1"⟩,
         ⟨"s", "aws_subnet.s", true, "us-east-1"⟩,
         ⟨"c", "aws_ecs_cluster.c", true, "us-east-1"⟩]
        (by decide) (by decide)).1 (by decide)).1)⟩

theorem length_filterMap_warnings (providers : Dict) (ms : List ResMatch) :
    (ms.filterMap (unresolvedWarning providers)).length =
      (ms.filter (fun m => pyFalsy (pyGet providers (inlineAlias m)))).length := by
  induction ms with
  | nil => rfl
  | cons m t ih =>
    by_cases h : pyFalsy (pyGet providers (inlineAlias m)) = true
    · simp [List.filterMap_cons, List.filter_cons, unresolvedWarning, h, ih]
    · simp [List.filterMap_cons, List.filter_cons, unresolvedWarning, h, ih]

/-- Claim C7: a resource declaration whose inline provider reference names
an alias absent from the provider map is assigned the fallback region
`us-east-1`, its record is still emitted, exactly one diagnostic is
produced for it (the warnings list has exactly one entry per record whose
alias lookup is falsy), and the extractor is total — no exception. -/
theorem unresolved_alias_fallback_one_warning (terraform_content : String)
    (providers : Dict) (m : ResMatch)
    (hm : m ∈ resourceMatches terraform_content)
    (habs : pyGet providers (inlineAlias m) = none) :
    (recordOf providers m).region = "us-east-1" ∧
    recordOf providers m ∈
      (parse_terraform_resources_with_providers terraform_content providers).resources ∧
    (inlineAlias m, m.rtype ++ "." ++ m.rname) ∈
      (parse_terraform_resources_with_providers terraform_content providers).warnings ∧
    (parse_terraform_resources_with_providers terraform_content providers).warnings.length =
      ((resourceMatches terraform_content).filter
          (fun m2 => pyFalsy (pyGet providers (inlineAlias m2)))).length := by
  refine ⟨?_, ?_, ?_, ?_⟩
  · simp [recordOf, resolveRegion, habs]
  · show recordOf providers m ∈
      (resourceMatches terraform_content).map (recordOf providers)
    exact List.mem_map_of_mem _ hm
  · show (inlineAlias m, m.rtype ++ "." ++ m.rname) ∈
      (resourceMatches terraform_content).filterMap (unresolvedWarning providers)
    have hw : unresolvedWarning providers m =
        some (inlineAlias m, m.rtype ++ "." ++ m.rname) := by
      simp [unresolvedWarning, habs, pyFalsy]
    exact List.mem_filterMap.mpr ⟨m, hm, hw⟩
  · exact length_filterMap_warnings providers _

/-- Witness for C7 at the `ghost` alias input. -/
theorem unresolved_alias_fallback_witness :
    ((⟨"aws_vpc", "main", "\n  provider = aws.ghost\n".toList⟩ : ResMatch) ∈
        resourceMatches ghostAliasInput) ∧
    pyGet [("default", "us-east-1")]
        (inlineAlias ⟨"aws_vpc", "main", "\n  provider = aws.ghost\n".toList⟩) =
      none ∧
    (recordOf [("default", "us-east-1")]
        ⟨"aws_vpc", "main", "\n  provider = aws.ghost\n".toList⟩).region =
      "us-east-1" :=
  ⟨by decide, by decide,
    (unresolved_alias_fallback_one_warning ghostAliasInput
      [("default", "us-east-1")]
      ⟨"aws_vpc", "main", "\n  provider = aws.ghost\n".toList⟩
      (by decide) (by decide)).1⟩

theorem captureUntil_mem_ne {stop : Char} {s cap rest : List Char}
    (h : captureUntil stop s = some (cap, rest)) : ∀ c ∈ cap, ¬(c = stop) := by
  intro c hc
  unfold captureUntil at h
  by_cases h1 : (s.takeWhile (fun c => !(c == stop))).isEmpty = true
  · rw [if_pos h1] at h
    exact absurd h (by simp)
  · rw [if_neg h1] at h
    by_cases h2 : (s.dropWhile (fun c => !(c == stop))).isEmpty = true
    · rw [if_pos h2] at h
      exact absurd h (by simp)
    · rw [if_neg h2] at h
      injection h with h3
      injection h3 with hcap hrest
      subst hcap
      have := List.mem_takeWhile_imp hc
      simpa using this

theorem matchResourceBlock_body {s : List Char} {m : ResMatch} {r : List Char}
    (h : matchResourceBlock s = some (m, r)) : ∀ c ∈ m.body, ¬(c = '}') := by
  unfold matchResourceBlock at h
  simp only [bind, Option.bind_eq_some, pure, Option.some.injEq] at h
  obtain ⟨s1, h1, s2, h2, s3, h3, ⟨ty, s4⟩, h4, s5, h5, s6, h6, ⟨nm, s7⟩, h7,
    s8, h8, s9, h9, ⟨body, s10⟩, h10, heq⟩ := h
  obtain ⟨hm2, hr2⟩ := Prod.mk.injEq .. ▸ heq
  subst hm2
  exact captureUntil_mem_ne h10

theorem scanAll_mem {α} {step : List Char → Option (α × List Char)}
    {P : α → Prop} (hstep : ∀ s a r, step s = some (a, r) → P a) :
    ∀ (fuel : Nat) (s : List Char) (a : α), a ∈ scanAll step fuel s → P a := by
  intro fuel
  induction fuel with
  | zero =>
    intro s a ha
    simp [scanAll] at ha
  | succ n ih =>
    intro s a ha
    cases s with
    | nil => simp [scanAll] at ha
    | cons c cs =>
      cases hst : step (c :: cs) with
      | none =>
        simp only [scanAll, hst] at ha
        exact ih cs a ha
      | some pr =>
        obtain ⟨a0, rest⟩ := pr
        simp only [scanAll, hst] at ha
        rcases List.mem_cons.mp ha with hh | hh
        · subst hh
          exact hstep _ _ _ hst
        · exact ih rest a hh

/-- Claim C5 counterexample: on the nested-body declaration the provider
map binds `east2` to `us-east-2`, yet the single extracted record carries
the region of the `default` binding (`eu-west-1`): the inline
`provider = aws.east2` reference placed after the nested `tags` sub-block
was never seen, because the body capture stops at the first closing brace. -/
theorem nested_body_provider_ref_not_found :
    pyGet nestedBodyProviders "east2" = some "us-east-2" ∧
    ((parse_terraform_resources_with_providers nestedBodyInput
        nestedBodyProviders).resources =
      [⟨"main", "aws_vpc.main", true, "eu-west-1"⟩]) :=
  ⟨by decide, by decide⟩

/-- Claim C5 amended: the extractor still emits one Resource Record for a
declaration with a nested sub-block, but its body scan IS truncated at the
first closing brace — no captured body ever contains a closing brace, so
an inline provider reference placed after a nested sub-block is never
found. -/
theorem nested_body_one_record_but_truncated :
    ((parse_terraform_resources_with_providers nestedBodyInput
        nestedBodyProviders).resources.map
        (fun r => (r.identifier, r.region)) = [("aws_vpc.main", "eu-west-1")]) ∧
    (∀ (terraform_content : String) (m : ResMatch),
        m ∈ resourceMatches terraform_content → ∀ c ∈ m.body, ¬(c = '}')) :=
  ⟨by decide,
   fun _terraform_content m hm =>
     scanAll_mem (fun _s _a _r hh => matchResourceBlock_body hh) _ _ m hm⟩

/-- Witness for the amended C5: the concrete truncated body of the
nested-body declaration contains no closing brace. -/
theorem nested_body_truncated_witness :
    ((⟨"aws_vpc", "main",
        "\n  tags = \x7b\n    Name = \"x\"\n  ".toList⟩ : ResMatch) ∈
      resourceMatches nestedBodyInput) ∧
    ¬('}' ∈ ("\n  tags = \x7b\n    Name = \"x\"\n  ".toList)) :=
  ⟨by decide,
   fun hmem =>
     (nested_body_one_record_but_truncated.2 nestedBodyInput
       ⟨"aws_vpc", "main", "\n  tags = \x7b\n    Name = \"x\"\n  ".toList⟩
       (by decide)) '}' hmem rfl⟩
